import Mathlib

/-!
Verification of the Secure Market Insights Gateway against its design
specification.  The Python services (gateway and fetcher) are shallowly
embedded: each relevant function is translated to an executable Lean
definition, timestamps (`time.time()` floats) are modelled as rationals, and
fallible code returns `Except`/`Option` values.
-/

namespace SMIG

/-! ## Rate limiter (`gateway/app/dependencies/rate_limiter.py`)

`TokenRateLimiter` keeps, per bearer token, the list of admission timestamps.
The claims quantify over a single identity, so the model carries the one
timestamp list that `check_limit` reads and writes for the given token; the
surrounding `defaultdict` indexes these lists pointwise and different tokens
never share a list. -/

/-- Result of one `check_limit` call: admitted, or an `HTTPException` with a
status code and the `Retry-After` header value. -/
inductive AdmitResult where
  | admitted
  | rejected (status : Nat) (retryAfter : ℚ)
deriving DecidableEq

/-- `TokenRateLimiter._clean_old_requests` for one identity: Python keeps
`[ts for ts in self._requests[token] if ts > window_start]`. -/
def cleanOldRequests (requests : List ℚ) (windowStart : ℚ) : List ℚ :=
  requests.filter (fun ts => windowStart < ts)

/-- `TokenRateLimiter.check_limit` for one identity: prune with
`_clean_old_requests(token, current_time - time_limit)`, then reject with a
429 and `Retry-After = time_limit` when `request_count >= rate_limit`,
otherwise append `current_time`. -/
def checkLimit (requests : List ℚ) (now : ℚ) (rateLimit : Nat) (timeLimit : ℚ) :
    AdmitResult × List ℚ :=
  let kept := cleanOldRequests requests (now - timeLimit)
  if rateLimit ≤ kept.length then
    (.rejected 429 timeLimit, kept)
  else
    (.admitted, kept ++ [now])

/-- Modelled from the claim's words (for comparison with `checkLimit`): the
claim says each call "discards that identity's stored timestamps older than
now - W", i.e. keeps every timestamp `ts` with `now - W ≤ ts`, and then
compares the remaining count to the limit. -/
def checkLimitClaim (requests : List ℚ) (now : ℚ) (rateLimit : Nat) (timeLimit : ℚ) :
    AdmitResult × List ℚ :=
  let kept := requests.filter (fun ts => now - timeLimit ≤ ts)
  if rateLimit ≤ kept.length then
    (.rejected 429 timeLimit, kept)
  else
    (.admitted, kept ++ [now])

/-- Run a sequence of admission calls (all for the same identity) from a given
state; `some finalState` when every call was admitted, `none` as soon as one
call is rejected. -/
def runAdmissions (rateLimit : Nat) (timeLimit : ℚ) :
    List ℚ → List ℚ → Option (List ℚ)
  | state, [] => some state
  | state, t :: rest =>
    match checkLimit state t rateLimit timeLimit with
    | (.admitted, state') => runAdmissions rateLimit timeLimit state' rest
    | (.rejected _ _, _) => none

/-! ## String primitives

Python string operations used by the gateway, modelled over `String.data`
(`List Char`) so that they evaluate by kernel reduction. -/

/-- Python `str.lower()` (ASCII case folding, which is all the code compares). -/
def pyLower (s : String) : String := ⟨s.data.map Char.toLower⟩

/-- Python `str.strip()`: drop leading and trailing whitespace. -/
def pyStrip (s : String) : String :=
  ⟨((s.data.dropWhile Char.isWhitespace).reverse.dropWhile Char.isWhitespace).reverse⟩

/-- Helper for `pySplitWs`: walk the characters, accumulating the current
word, splitting at whitespace and dropping empty pieces. -/
def pySplitWsAux : List Char → List Char → List String
  | [], acc => if acc.isEmpty then [] else [⟨acc.reverse⟩]
  | c :: cs, acc =>
    if c.isWhitespace then
      if acc.isEmpty then pySplitWsAux cs []
      else ⟨acc.reverse⟩ :: pySplitWsAux cs []
    else pySplitWsAux cs (c :: acc)

/-- Python `str.split()` with no separator: split on runs of whitespace,
never producing empty pieces. -/
def pySplitWs (s : String) : List String := pySplitWsAux s.data []

/-- Python `str.replace(":", "")`: a single-character pattern with an empty
replacement deletes every colon. -/
def removeColons (s : String) : String := ⟨s.data.filter (fun c => c ≠ ':')⟩

/-! ## Authentication (`gateway/app/dependencies/auth.py`) -/

/-- An `HTTPException`: transport status code and detail message (the
auth failures additionally carry a WWW-Authenticate Bearer header, which is
constant and not modelled). -/
structure HttpError where
  status : Nat
  detail : String
deriving DecidableEq

/-- `_check_header_exists`: `if not authorization_header` — an absent or empty
header fails with 401. -/
def checkHeaderExists : Option String → Except HttpError Unit
  | none => .error ⟨401, r"Missing Authorization header"⟩
  | some s =>
    if s = "" then .error ⟨401, r"Missing Authorization header"⟩
    else .ok ()

/-- `_validate_header_scheme`: split the stripped header on whitespace,
demand exactly two parts, compare `scheme.lower().replace(":", "")` against
`"bearer"`, and reject an empty token (unreachable, since the split never
produces empty parts). -/
def validateHeaderScheme (h : String) : Except HttpError String :=
  match pySplitWs (pyStrip h) with
  | [scheme, token] =>
    if removeColons (pyLower scheme) ≠ "bearer" then
      .error ⟨401, r"Invalid authorization scheme. Expected Bearer"⟩
    else if token = "" then
      .error ⟨401, r"Empty token provided"⟩
    else
      .ok token
  | _ => .error ⟨401, r"Invalid Authorization header format. Expected Bearer token"⟩

/-- `validate_authorization_header`: existence check, format/scheme check,
then comparison of the token with the configured `settings.api_token`. -/
def validateAuthorizationHeader (h : Option String) (apiToken : String) :
    Except HttpError String :=
  match checkHeaderExists h with
  | .error e => .error e
  | .ok _ =>
    match validateHeaderScheme (match h with | some s => s | none => "") with
    | .error e => .error e
    | .ok token =>
      if token ≠ apiToken then .error ⟨401, r"Invalid authentication token"⟩
      else .ok token

/-- Modelled from the claim's words (for comparison with
`validateAuthorizationHeader`): authentication succeeds exactly when the
header is present, splits into exactly two whitespace-separated tokens, the
first token is the scheme Bearer compared case-insensitively with an optional
trailing colon, and the second token is non-empty and equal to the configured
secret. -/
def authClaimSuccess (h : Option String) (apiToken : String) : Prop :=
  ∃ s scheme token, h = some s ∧ pySplitWs (pyStrip s) = [scheme, token] ∧
    (pyLower scheme = "bearer" ∨ pyLower scheme = "bearer:") ∧
    token ≠ "" ∧ token = apiToken

/-! ## JSON values and the redis value space

With `decode_responses=True` the redis client stores and returns strings.
The cache stores two kinds of strings: `json.dumps` output (payload records)
and plain request-id strings (alias records).  The stored-value space is
modelled as the sum of both kinds: `asJson j` stands for the string
`json.dumps(j)` (on which `json.loads` succeeds, returning `j`), and
`asStr s` stands for a plain string `s` that is not a valid JSON document
(uuid request-id strings are such), on which `json.loads` raises. -/

mutual
inductive JVal where
  | jnull
  | jbool (b : Bool)
  | jnum (q : ℚ)
  | jstr (s : String)
  | jobj (fields : JFields)
inductive JFields where
  | jfnil
  | jfcons (key : String) (val : JVal) (rest : JFields)
end

mutual
/-- JSON serialisation of a value (`json.dumps`); the exact number formatting
is irrelevant to the claims, so `toString` of the rational is used. -/
def JVal.dumps : JVal → String
  | .jnull => "null"
  | .jbool true => "true"
  | .jbool false => "false"
  | .jnum q => toString q
  | .jstr s => "\"" ++ s ++ "\""
  | .jobj fs => "\x7b" ++ JFields.dumps fs ++ "\x7d"
/-- Serialise object fields as comma-separated key-value pairs. -/
def JFields.dumps : JFields → String
  | .jfnil => ""
  | .jfcons k v rest =>
      "\"" ++ k ++ "\": " ++ JVal.dumps v ++
        (match rest with | .jfnil => "" | .jfcons _ _ _ => ", ") ++ JFields.dumps rest
end

/-- Python `dict.get(key)` over parsed-JSON object fields (first match; the
program builds objects with distinct keys). -/
def JFields.lookup : JFields → String → Option JVal
  | .jfnil, _ => none
  | .jfcons k v rest, key => if k = key then some v else rest.lookup key

/-- A string stored in (or read from) the redis backend. -/
inductive RedisVal where
  | asJson (j : JVal)
  | asStr (s : String)

/-- `json.loads` on a stored string: succeeds exactly on `json.dumps` output,
and raises `json.JSONDecodeError` (modelled as `none`) on the plain non-JSON
strings the cache stores. -/
def jsonLoads : RedisVal → Option JVal
  | .asJson j => some j
  | .asStr _ => none

/-- The stored string itself, used when a value read back is passed on as a
key or returned to the caller. -/
def RedisVal.toStr : RedisVal → String
  | .asJson j => j.dumps
  | .asStr s => s

/-- Python falsiness of a string returned by redis (`if not request_id`,
`if not result_json`); `json.dumps` output is never the empty string. -/
def RedisVal.isFalsy : RedisVal → Bool
  | .asJson _ => false
  | .asStr s => s == ""

/-! ## The cache (`gateway/app/dependencies/cache.py`)

`RedisCache` holds `self._redis : Optional[redis.Redis]` (`None` when the
initial connection failed).  An established connection can still be down, in
which case every backend operation raises `RedisError`. -/

/-- One key of the backend store: key, absolute expiry instant, stored value. -/
structure RedisEntry where
  key : String
  expiresAt : ℚ
  val : RedisVal

/-- The external key-value backend: responsive or down (raising `RedisError`
on every operation), holding keys with per-key TTL. -/
structure RedisConn where
  up : Bool
  store : List RedisEntry

/-- The `redis.exceptions.RedisError` the cache catches. -/
inductive RedisError where
  | connectionError
deriving DecidableEq

/-- Backend `GET` at wall-clock time `now`: `RedisError` when the connection
is down; the unexpired value of the key, or nothing, otherwise. -/
def RedisConn.rget (r : RedisConn) (now : ℚ) (k : String) :
    Except RedisError (Option RedisVal) :=
  if r.up then
    match r.store.find? (fun entry => entry.key == k) with
    | some entry => if now < entry.expiresAt then .ok (some entry.val) else .ok none
    | none => .ok none
  else .error .connectionError

/-- Backend `SETEX` at time `now`: store the value under the key with expiry
`now + ttl`, replacing any previous value of that single key. -/
def RedisConn.rsetex (r : RedisConn) (now : ℚ) (k : String) (ttl : ℚ) (v : RedisVal) :
    Except RedisError RedisConn :=
  if r.up then
    .ok { r with store := ⟨k, now + ttl, v⟩ :: r.store.filter (fun entry => entry.key != k) }
  else .error .connectionError

/-- Backend `DEL` of a list of keys. -/
def RedisConn.rdel (r : RedisConn) (ks : List String) : Except RedisError RedisConn :=
  if r.up then
    .ok { r with store := r.store.filter (fun entry => !(ks.contains entry.key)) }
  else .error .connectionError

/-- Backend `PING`. -/
def RedisConn.rping (r : RedisConn) : Except RedisError Unit :=
  if r.up then .ok () else .error .connectionError

/-- The expiry instant the backend holds for a key. -/
def RedisConn.expiryOf (r : RedisConn) (k : String) : Option ℚ :=
  match r.store.find? (fun entry => entry.key == k) with
  | some entry => some entry.expiresAt
  | none => none

/-- `RedisCache._get_query_key`. -/
def getQueryKey (queryParams : String) : String := "query:" ++ queryParams

/-- `RedisCache._get_result_key`. -/
def getResultKey (requestId : String) : String := "result:" ++ requestId

/-- `RedisCache.get_by_request_id`: `None` when the connection is absent, the
key is missing or expired, the backend raises (`RedisError` caught), or the
stored string fails to decode as JSON (`JSONDecodeError` caught). -/
def getByRequestId : Option RedisConn → ℚ → String → Option JVal
  | none, _, _ => none
  | some r, now, requestId =>
    match r.rget now (getResultKey requestId) with
    | .error _ => none
    | .ok none => none
    | .ok (some v) => if v.isFalsy then none else jsonLoads v

/-- `RedisCache.get`: look up the alias record, and when it is present return
the pair `(result_data, request_id)` where `result_data` comes from
`get_by_request_id` — even when that payload lookup produced nothing. -/
def cacheGet : Option RedisConn → ℚ → String → Option (Option JVal × String)
  | none, _, _ => none
  | some r, now, queryParams =>
    match r.rget now (getQueryKey queryParams) with
    | .error _ => none
    | .ok none => none
    | .ok (some rid) =>
      if rid.isFalsy then none
      else some (getByRequestId (some r) now rid.toStr, rid.toStr)

/-- A backend write command. -/
inductive RedisCmd where
  | setex (key : String) (ttl : ℚ) (val : RedisVal)

/-- The backend writes `RedisCache.set` issues, in program order: first the
payload record (`result:{request_id}` mapped to `json.dumps(result_data)`),
then the alias record (`query:{query_params}` mapped to the request id), each
passing the same `ttl` argument to its own `SETEX`. -/
def cacheSetCmds (queryParams requestId : String) (resultData : JVal) (ttl : ℚ) :
    List RedisCmd :=
  [ .setex (getResultKey requestId) ttl (.asJson resultData),
    .setex (getQueryKey queryParams) ttl (.asStr requestId) ]

/-- Execute one write command at the wall-clock time it reaches the backend. -/
def RedisConn.applyCmd (r : RedisConn) (t : ℚ) : RedisCmd → Except RedisError RedisConn
  | .setex k ttl v => r.rsetex t k ttl v

/-- Execute a list of (time, command) pairs in order, stopping at the first
backend error. -/
def applyCmdsAt (r : RedisConn) : List (ℚ × RedisCmd) → Except RedisError RedisConn
  | [] => .ok r
  | (t, c) :: rest =>
    match r.applyCmd t c with
    | .error e => .error e
    | .ok r' => applyCmdsAt r' rest

/-- `RedisCache.set`: `False` without a connection; otherwise issue the two
writes of `cacheSetCmds` (both at time `now`), returning `True` on success
and `False` when the backend raises (`RedisError` caught). -/
def cacheSet (conn : Option RedisConn) (now : ℚ) (queryParams requestId : String)
    (resultData : JVal) (ttl : ℚ) : Bool × Option RedisConn :=
  match conn with
  | none => (false, conn)
  | some r =>
    match applyCmdsAt r ((cacheSetCmds queryParams requestId resultData ttl).map
        (fun c => (now, c))) with
    | .error _ => (false, some r)
    | .ok r' => (true, some r')

/-- `RedisCache.delete`: look up the alias, and when it is present delete both
keys and return `True`; `False` otherwise, on a missing connection, and when
the backend raises. -/
def cacheDelete (conn : Option RedisConn) (now : ℚ) (queryParams : String) :
    Bool × Option RedisConn :=
  match conn with
  | none => (false, conn)
  | some r =>
    match r.rget now (getQueryKey queryParams) with
    | .error _ => (false, some r)
    | .ok none => (false, some r)
    | .ok (some rid) =>
      if rid.isFalsy then (false, some r)
      else
        match r.rdel [getQueryKey queryParams, getResultKey rid.toStr] with
        | .error _ => (false, some r)
        | .ok r' => (true, some r')

/-- `RedisCache.health_check`: `False` without a connection or when `PING`
raises, `True` otherwise. -/
def cacheHealthCheck (conn : Option RedisConn) : Bool :=
  match conn with
  | none => false
  | some r =>
    match r.rping with
    | .ok _ => true
    | .error _ => false

/-! ## Upstream client (`fetcher/app/dependencies/coinmarketcap_client.py`)
and the gateway's fetcher handler
(`gateway/app/dependencies/fetcher_handler.py`) -/

/-- One provider interaction as `httpx` reports it: an HTTP response with a
status code and JSON body, or a connection-level failure
(`httpx.RequestError`, of which timeouts are a subclass). -/
inductive ProviderResult where
  | resp (status : Nat) (body : JVal)
  | connError

/-- The exceptions `_fetch_with_retry` raises: `raise_for_status()` turns any
4xx/5xx response into `httpx.HTTPStatusError`, and connection-level failures
are `httpx.RequestError`. -/
inductive FetchErr where
  | httpStatusError (status : Nat)
  | requestError
deriving DecidableEq

/-- One attempt of `_fetch_with_retry`: `client.get` + `raise_for_status()` +
`response.json()`. -/
def attemptOnce : ProviderResult → Except FetchErr JVal
  | .connError => .error .requestError
  | .resp s body => if 400 ≤ s then .error (.httpStatusError s) else .ok body

/-- The tenacity predicate
`retry_if_exception_type((httpx.HTTPStatusError, httpx.RequestError))`: both
exception kinds are retried. -/
def retryableErr : FetchErr → Bool
  | .httpStatusError _ => true
  | .requestError => true

/-- `_fetch_with_retry` under `@retry(stop=stop_after_attempt(3),
wait=wait_exponential(...), retry=retry_if_exception_type(...),
reraise=True)`: the provider is indexed by the 1-based attempt number; the
result is the number of attempts made together with the final outcome (the
last exception is re-raised after the third failed attempt; the exponential
backoff between attempts has no observable effect beyond elapsed time). -/
def fetchWithRetry (provider : Nat → ProviderResult) : Nat × Except FetchErr JVal :=
  match attemptOnce (provider 1) with
  | .ok b => (1, .ok b)
  | .error e1 =>
    if retryableErr e1 then
      match attemptOnce (provider 2) with
      | .ok b => (2, .ok b)
      | .error e2 =>
        if retryableErr e2 then (3, attemptOnce (provider 3))
        else (2, .error e2)
    else (1, .error e1)

/-- Python truthiness of a parsed JSON value (`if not crypto_data`,
`if platform`). -/
def JVal.truthy : JVal → Bool
  | .jnull => false
  | .jbool b => b
  | .jnum q => q != 0
  | .jstr s => s != ""
  | .jobj .jfnil => false
  | .jobj (.jfcons _ _ _) => true

/-- Python `x is None` for a value fetched with `dict.get` (an absent key
gives Python `None`, and JSON `null` parses to Python `None` as well). -/
def isPyNone : Option JVal → Bool
  | none => true
  | some .jnull => true
  | some _ => false

/-- Python `float(x)` on a parsed JSON value: numbers convert, booleans
convert to 0/1; any other input raises `ValueError` (modelled as `none`; the
provider path only ever passes numbers here). -/
def pyFloat : JVal → Option ℚ
  | .jnum q => some q
  | .jbool b => some (if b then 1 else 0)
  | _ => none

/-- Python `str.capitalize()`: first character upper-cased, the rest
lower-cased. -/
def pyCapitalize (s : String) : String :=
  match s.data with
  | [] => ""
  | c :: cs => ⟨Char.toUpper c :: cs.map Char.toLower⟩

/-- Python `dict.get(key, default)` over parsed-JSON object fields. -/
def JFields.getD (fs : JFields) (key : String) (dflt : JVal) : JVal :=
  match fs.lookup key with
  | some v => v
  | none => dflt

/-- `data.get("data", {}).get(symbol)`: the nested dict lookups of
`fetch_coin_data`; shapes that are not objects would raise
`AttributeError` in Python and are collapsed to `none` (the provider always
sends objects on this path). -/
def extractCryptoData (data : JVal) (symbol : String) : Option JVal :=
  match data with
  | .jobj fs =>
    match fs.lookup (r"data") with
    | some (.jobj inner) => inner.lookup symbol
    | some _ => none
    | none => none
  | _ => none

/-- The `platform` normalisation of `fetch_coin_data`:
`crypto_data.get("platform", None)`, and when truthy its `name` entry
(default `None`); a truthy non-object would raise `AttributeError` in Python
and is collapsed to `null` (never exercised: the provider sends an object or
`null`). -/
def extractPlatform (fs : JFields) : JVal :=
  match fs.lookup (r"platform") with
  | none => .jnull
  | some p =>
    if p.truthy then
      match p with
      | .jobj pfs => pfs.getD (r"name") .jnull
      | _ => .jnull
    else p

/-- The normalised `CryptoInsight` body built on a successful parse. -/
def buildInsight (symbol : String) (fs : JFields) (csq mcq : ℚ) : JVal :=
  .jobj (.jfcons (r"symbol") (.jstr symbol)
    (.jfcons (r"name") (fs.getD (r"name") (.jstr (pyCapitalize symbol)))
      (.jfcons (r"category") (fs.getD (r"category") .jnull)
        (.jfcons (r"description") (fs.getD (r"description") .jnull)
          (.jfcons (r"date_launched") (fs.getD (r"date_launched") .jnull)
            (.jfcons (r"logo") (fs.getD (r"logo") .jnull)
              (.jfcons (r"platform") (extractPlatform fs)
                (.jfcons (r"circulating_suply") (.jnum csq)
                  (.jfcons (r"market_cap") (.jnum mcq) .jfnil)))))))))

/-- The parse-and-validate phase of `fetch_coin_data` on a 2xx body: the
requested symbol must be present and truthy in the response, the two
self-reported numeric fields must not be `None`, and the floats must convert;
any failure is the `ValueError` path (`none`), which the caller maps to a
500. -/
def parseCryptoData (symbol : String) (data : JVal) : Option JVal :=
  match extractCryptoData data symbol with
  | none => none
  | some crypto =>
    if !crypto.truthy then none
    else
      match crypto with
      | .jobj fs =>
        if isPyNone (fs.lookup (r"self_reported_circulating_supply")) ||
            isPyNone (fs.lookup (r"self_reported_market_cap")) then none
        else
          match fs.lookup (r"self_reported_circulating_supply"),
              fs.lookup (r"self_reported_market_cap") with
          | some cs, some mc =>
            match pyFloat cs, pyFloat mc with
            | some csq, some mcq => some (buildInsight symbol fs csq mcq)
            | _, _ => none
          | _, _ => none
      | _ => none

/-- `fetch_coin_data`: run `_fetch_with_retry` and either parse/validate the
body or map the final exception to an `HTTPException`: status 400 to 400,
401 to 503 (masking the upstream credential failure), 404 to 404, every
other `HTTPStatusError` to 503, `RequestError` (connection/timeout) to 503,
and parse failures to 500. -/
def fetchCoinData (provider : Nat → ProviderResult) (symbol : String) :
    Except HttpError JVal :=
  match (fetchWithRetry provider).2 with
  | .error (.httpStatusError s) =>
    if s = 400 then .error ⟨400, r"Invalid request for cryptocurrency"⟩
    else if s = 401 then .error ⟨503, r"Upstream API authentication failed"⟩
    else if s = 404 then .error ⟨404, r"Cryptocurrency not found"⟩
    else .error ⟨503, r"Upstream API unavailable"⟩
  | .error .requestError => .error ⟨503, r"Failed to connect to upstream API"⟩
  | .ok data =>
    match parseCryptoData symbol data with
    | some insight => .ok insight
    | none => .error ⟨500, r"Failed to parse upstream API response"⟩

/-- What the gateway's httpx call to the fetcher service observes: an HTTP
reply, a timeout of its own call (`httpx.TimeoutException`), or another
transport failure. -/
inductive FetcherView where
  | reply (status : Nat) (body : JVal)
  | timeoutErr
  | connErr

/-- The fetcher route `GET /v1/fetch/symbol` for a whitelisted symbol: 200
with the insight on success, otherwise the `HTTPException` raised by
`fetch_coin_data`, re-raised unchanged by the route. -/
def fetcherReply (provider : Nat → ProviderResult) (symbol : String) : FetcherView :=
  match fetchCoinData provider symbol with
  | .ok insight => .reply 200 insight
  | .error e => .reply e.status (.jobj (.jfcons (r"detail") (.jstr e.detail) .jfnil))

/-- `fetch_symbol_data` (gateway): call the fetcher service and map failures:
`TimeoutException` to 504; an HTTP error status at or above 500 to 503; any
other HTTP error status passed through as the fetcher reported it; any other
exception to 503. -/
def fetch_symbol_data : FetcherView → Except HttpError JVal
  | .timeoutErr => .error ⟨504, r"Fetcher service request timed out"⟩
  | .connErr => .error ⟨503, r"Failed to communicate with Fetcher service"⟩
  | .reply s body =>
    if 400 ≤ s then
      if 500 ≤ s then .error ⟨503, r"Fetcher service is currently unavailable"⟩
      else .error ⟨s, r"Fetcher service error"⟩
    else .ok body

/-- End-to-end outcome the gateway surfaces for a symbol fetch, as a function
of provider behaviour, when the gateway-to-fetcher call itself neither times
out nor fails. -/
def gatewayFetchOutcome (provider : Nat → ProviderResult) (symbol : String) :
    Except HttpError JVal :=
  fetch_symbol_data (fetcherReply provider symbol)

/-- The HTTP status of an outcome (200 on success). -/
def outcomeStatus : Except HttpError JVal → Nat
  | .ok _ => 200
  | .error e => e.status

/-! ## Rate-limit decorator and the health endpoint
(`gateway/app/dependencies/rate_limiter.py` wrapper,
`gateway/app/routers/health.py`)

FastAPI derives a route's parameters from the signature of the wrapped
endpoint function (`functools.wraps` exposes it through `__wrapped__`) and
calls the registered callable with those values as keyword arguments; the
`rate_limit()` wrapper then looks `token` up among them. -/

/-- The `HealthResponse` body of the health handler. -/
structure HealthResponse where
  status : String
  timestamp : ℚ
deriving DecidableEq

/-- The body of `health_check`: status healthy when the backend answers the
ping, degraded otherwise, with the current timestamp. -/
def health_check_body (conn : Option RedisConn) (now : ℚ) : HealthResponse :=
  ⟨if cacheHealthCheck conn then (r"healthy") else (r"degraded"), now⟩

/-- The `rate_limit()` wrapper guard: `token = kwargs.get('token')`; a
missing or falsy token raises the 500 configuration error before the wrapped
endpoint body runs. -/
def rateLimitTokenGuard (kwargs : List (String × String)) : Option HttpError :=
  match kwargs.lookup (r"token") with
  | none => some ⟨500, r"Rate limiting configuration error"⟩
  | some t =>
    if t = "" then some ⟨500, r"Rate limiting configuration error"⟩
    else none

/-- The keyword arguments FastAPI passes to the decorated `health_check`
endpoint: its signature declares only `request`, so there is never a `token`
entry (the request object itself is irrelevant to the guard and modelled as
an empty string). -/
def healthEndpointKwargs : List (String × String) := [((r"request"), (r""))]

/-- `GET /v1/health` as served: the `rate_limit()` wrapper runs first with
the endpoint's kwargs, and only if it admits does the handler body run (the
wrapper would in fact also fail to await the non-async handler, but that
point is never reached). -/
def healthEndpoint (conn : Option RedisConn) (now : ℚ) :
    Except HttpError HealthResponse :=
  match rateLimitTokenGuard healthEndpointKwargs with
  | some e => .error e
  | none => .ok (health_check_body conn now)

/-! ## The create-insight orchestration (`gateway/app/routers/insights.py`) -/

/-- Failures escaping the handler: deliberate `HTTPException`s, and Python
exceptions that the outermost handler converts to a generic 500
(`TypeError`, `AttributeError`, `KeyError`, pydantic `ValidationError`). -/
inductive PyErr where
  | httpError (e : HttpError)
  | typeError
  | attributeError
  | keyError
  | validationError
deriving DecidableEq

/-- `datetime.fromisoformat(x)`: requires a string argument and raises
`TypeError` otherwise (`None` and floats included).  Parsing of the string
itself is abstracted as succeeding — generous to the code, and irrelevant
here because the program always stores a float under `fetched_at`. -/
def fromisoformat : Option JVal → Except PyErr String
  | some (.jstr s) => .ok s
  | _ => .error .typeError

/-- `cached_data.get(key)` where `cached_data: Optional[dict]` — `None.get`
raises `AttributeError`, as does `.get` on a non-dict. -/
def pyOptGet : Option JVal → String → Except PyErr (Option JVal)
  | none, _ => .error .attributeError
  | some (.jobj fs), key => .ok (fs.lookup key)
  | some _, _ => .error .attributeError

/-- `cached_data[key]` subscription: `KeyError` when the key is absent,
`TypeError` on a non-dict. -/
def pySubscript : JVal → String → Except PyErr JVal
  | .jobj fs, key =>
    match fs.lookup key with
    | some v => .ok v
    | none => .error .keyError
  | _, _ => .error .typeError

/-- A required string field of `InsightData`. -/
def isStrField : Option JVal → Bool
  | some (.jstr _) => true
  | _ => false

/-- An optional string field of `InsightData` (absent, null, or a string). -/
def isOptStrField : Option JVal → Bool
  | none => true
  | some .jnull => true
  | some (.jstr _) => true
  | _ => false

/-- An optional float field of `InsightData` (absent, null, or a number). -/
def isOptNumField : Option JVal → Bool
  | none => true
  | some .jnull => true
  | some (.jnum _) => true
  | _ => false

/-- Pydantic validation `InsightData(**symbol_data)`: required strings
`symbol`, `name`, `category`, `description`; optional strings
`date_launched`, `logo`, `platform`; optional floats `circulating_suply`,
`market_cap`; anything that is not a dict fails as well. -/
def insightDataOk : JVal → Bool
  | .jobj fs =>
    isStrField (fs.lookup (r"symbol")) && isStrField (fs.lookup (r"name")) &&
    isStrField (fs.lookup (r"category")) &&
    isStrField (fs.lookup (r"description")) &&
    isOptStrField (fs.lookup (r"date_launched")) &&
    isOptStrField (fs.lookup (r"logo")) &&
    isOptStrField (fs.lookup (r"platform")) &&
    isOptNumField (fs.lookup (r"circulating_suply")) &&
    isOptNumField (fs.lookup (r"market_cap"))
  | _ => false

/-- The gateway symbol whitelist (`gateway/app/validator.py`). -/
def ALLOWED_SYMBOLS : List String :=
  [r"bitcoin", r"ethereum", r"cardano", r"solana", r"polkadot"]

/-- `validate_symbol` (gateway): `symbol.lower().strip()` must belong to the
whitelist; otherwise a 400 `HTTPException` listing the allowed symbols. -/
def validate_symbol (symbol : String) : Except HttpError String :=
  let s := pyStrip (pyLower symbol)
  if ALLOWED_SYMBOLS.contains s then .ok s
  else .error ⟨400, r"Invalid symbol. Allowed symbols: bitcoin, ethereum, cardano, solana, polkadot"⟩

/-- The `InsightResponse` the handler returns; `fetched_at` keeps the raw
value handed to the pydantic model — a float (`.jnum`) on the fresh path, a
parsed datetime string (`.jstr`) on the cached path. -/
structure InsightResponse where
  request_id : String
  symbol : String
  data : JVal
  cached : Bool
  fetched_at : JVal

/-- `create_insight` (`POST /v1/insights`): validate the symbol, look the
fingerprint up in the cache; on a hit (any tuple, even `(None, rid)`, is
truthy) rebuild `fetched_at` with
`datetime.fromisoformat(cached_data.get("fetched_at"))` and answer
`cached=True`; on a miss mint the fresh request id, call the fetcher handler,
validate, store through `cache.set` and answer `cached=False`.  Runtime
inputs are parameters: the cache connection, the wall-clock time, the minted
uuid, and the outcome of `fetch_symbol_data` for this symbol. -/
def create_insight (conn : Option RedisConn) (now : ℚ) (freshRequestId : String)
    (fetchResult : Except HttpError JVal) (ttl : ℚ) (symbolRaw : String) :
    Except PyErr (InsightResponse × Option RedisConn) :=
  match validate_symbol symbolRaw with
  | .error e => .error (.httpError e)
  | .ok symbol =>
    let queryParams := (r"symbol=") ++ symbol
    match cacheGet conn now queryParams with
    | some (cachedData, cachedRequestId) =>
      match pyOptGet cachedData (r"fetched_at") with
      | .error e => .error e
      | .ok fetchedRaw =>
        match fromisoformat fetchedRaw with
        | .error e => .error e
        | .ok iso =>
          match cachedData with
          | none => .error .attributeError
          | some cd =>
            match pySubscript cd (r"data") with
            | .error e => .error e
            | .ok payload =>
              if insightDataOk payload then
                .ok (⟨cachedRequestId, symbol, payload, true, .jstr iso⟩, conn)
              else .error .validationError
    | none =>
      match fetchResult with
      | .error e => .error (.httpError e)
      | .ok symbolData =>
        if insightDataOk symbolData then
          let cacheData := JVal.jobj (.jfcons (r"data") symbolData
            (.jfcons (r"fetched_at") (.jnum now) .jfnil))
          let setResult := cacheSet conn now queryParams freshRequestId cacheData ttl
          .ok (⟨freshRequestId, symbol, symbolData, false, .jnum now⟩, setResult.2)
        else .error (.httpError ⟨500, r"Invalid data format from Fetcher service"⟩)

/-- A concrete well-formed fetcher response body for bitcoin, as the mocked
fetcher fixture in the repository's tests produces. -/
def bitcoinBody : JVal :=
  .jobj (.jfcons (r"symbol") (.jstr (r"bitcoin"))
    (.jfcons (r"name") (.jstr (r"Bitcoin"))
      (.jfcons (r"category") (.jstr (r"coin"))
        (.jfcons (r"description") (.jstr (r"desc")) .jfnil))))

lemma cleanOldRequests_eq_self {requests : List ℚ} {w : ℚ}
    (h : ∀ x ∈ requests, w < x) : cleanOldRequests requests w = requests := by
  unfold cleanOldRequests
  exact List.filter_eq_self.mpr (fun x hx => by simpa using h x hx)

lemma runAdmissions_all_admitted (L : Nat) (W : ℚ) (tN : ℚ) :
    ∀ (ts state : List ℚ),
      state.length + ts.length ≤ L →
      (∀ x ∈ state, tN - W < x) →
      (∀ x ∈ ts, tN - W < x ∧ x ≤ tN) →
      runAdmissions L W state ts = some (state ++ ts) := by
  intro ts
  induction ts with
  | nil => intro state _ _ _; simp [runAdmissions]
  | cons t rest ih =>
    intro state hlen hstate hts
    have htmem := hts t (by simp)
    have hkeep : ∀ x ∈ state, t - W < x := by
      intro x hx
      have h1 : tN - W < x := hstate x hx
      have h2 : t - W ≤ tN - W := by linarith [htmem.2]
      linarith
    have hclean : cleanOldRequests state (t - W) = state :=
      cleanOldRequests_eq_self hkeep
    have hcount : state.length < L := by
      simp at hlen; omega
    have hstep : checkLimit state t L W = (.admitted, state ++ [t]) := by
      unfold checkLimit
      rw [hclean]
      simp [Nat.not_le.mpr hcount]
    rw [runAdmissions, hstep]
    have hrec := ih (state ++ [t])
      (by simp at hlen ⊢; omega)
      (by
        intro x hx
        rcases List.mem_append.mp hx with hx' | hx'
        · exact hstate x hx'
        · simp at hx'; subst hx'; exact htmem.1)
      (fun x hx => hts x (by simp [hx]))
    simpa [List.append_assoc] using hrec

/-- C3 (counterexample): at `now = 10`, `W = 10`, `L = 1` and a stored
timestamp lying exactly at `now - W = 0`, the code discards the boundary
timestamp (strict `>` filter) and admits, while the claim's algorithm — which
discards only timestamps strictly older than `now - W` — keeps it and rejects
with 429; so the claim, as stated, is false of `check_limit`. -/
theorem checkLimit_claim_counterexample :
    checkLimit [0] 10 1 10 = (.admitted, [10]) ∧
    checkLimitClaim [0] 10 1 10 = (.rejected 429 10, [0]) ∧
    checkLimit [0] 10 1 10 ≠ checkLimitClaim [0] 10 1 10 := by
  refine ⟨?_, ?_, ?_⟩ <;>
    norm_num [checkLimit, checkLimitClaim, cleanOldRequests, List.filter]

/-- C3 (amended): each `check_limit` call first discards the identity's stored
timestamps at or before `now - W` (keeping exactly the strictly newer ones),
then compares the remaining count to `L`; at least `L` remaining means
rejection with status 429 and `Retry-After = W` without recording a new
timestamp, otherwise `now` is appended and the call admits — so the first `L`
admissions within `W` succeed and the `(L+1)`-th within the same window fails
with 429 and `Retry-After = W`. -/
theorem checkLimit_sliding_window :
    (∀ (reqs : List ℚ) (now : ℚ) (L : Nat) (W : ℚ),
      cleanOldRequests reqs (now - W) = reqs.filter (fun ts => now - W < ts) ∧
      (L ≤ (cleanOldRequests reqs (now - W)).length →
        checkLimit reqs now L W = (.rejected 429 W, cleanOldRequests reqs (now - W))) ∧
      ((cleanOldRequests reqs (now - W)).length < L →
        checkLimit reqs now L W = (.admitted, cleanOldRequests reqs (now - W) ++ [now]))) ∧
    (∀ (L : Nat) (W : ℚ) (ts : List ℚ) (tN : ℚ),
      ts.length = L →
      (∀ x ∈ ts, tN - W < x ∧ x ≤ tN) →
      runAdmissions L W [] ts = some ts ∧
      (checkLimit ts tN L W).1 = .rejected 429 W) := by
  constructor
  · intro reqs now L W
    refine ⟨rfl, ?_, ?_⟩
    · intro h
      simp [checkLimit, h]
    · intro h
      simp [checkLimit, Nat.not_le.mpr h]
  · intro L W ts tN hlen hts
    constructor
    · simpa using runAdmissions_all_admitted L W tN ts [] (by simp [hlen]) (by simp) hts
    · have hclean : cleanOldRequests ts (tN - W) = ts :=
        cleanOldRequests_eq_self (fun x hx => (hts x hx).1)
      simp [checkLimit, hclean, hlen]

/-- C3 witness: the amended theorem applied at concrete inputs (a full window
rejects; an empty window admits and records; one admission at time 5 with
`L = 1`, `W = 10` succeeds and the second call at time 6 is rejected with 429
and `Retry-After = 10`). -/
theorem checkLimit_sliding_window_witness :
    checkLimit [0, 1] 3 1 10 = (.rejected 429 10, cleanOldRequests [0, 1] (3 - 10)) ∧
    checkLimit [] 3 1 10 = (.admitted, cleanOldRequests [] (3 - 10) ++ [3]) ∧
    runAdmissions 1 10 [] [5] = some [5] ∧
    (checkLimit [5] 6 1 10).1 = .rejected 429 10 :=
  ⟨(checkLimit_sliding_window.1 [0, 1] 3 1 10).2.1
      (by norm_num [cleanOldRequests, List.filter]),
   (checkLimit_sliding_window.1 [] 3 1 10).2.2
      (by norm_num [cleanOldRequests, List.filter]),
   (checkLimit_sliding_window.2 1 10 [5] 6 (by norm_num) (by norm_num)).1,
   (checkLimit_sliding_window.2 1 10 [5] 6 (by norm_num) (by norm_num)).2⟩

lemma validateHeaderScheme_eq_ok {h token : String} :
    validateHeaderScheme h = .ok token ↔
    ∃ scheme, pySplitWs (pyStrip h) = [scheme, token] ∧
      removeColons (pyLower scheme) = "bearer" ∧ token ≠ "" := by
  unfold validateHeaderScheme
  rcases hsp : pySplitWs (pyStrip h) with - | ⟨scheme, l⟩
  · simp
  · rcases l with - | ⟨token', l'⟩
    · simp
    · rcases l' with - | ⟨x, l''⟩
      · constructor
        · intro hok
          by_cases h1 : removeColons (pyLower scheme) = "bearer"
          · by_cases h2 : token' = ""
            · simp [h1, h2] at hok
            · simp [h1, h2] at hok
              exact ⟨scheme, by simp [hok], h1, hok ▸ h2⟩
          · simp [h1] at hok
        · rintro ⟨scheme', heq, hcol, htok⟩
          injection heq with e1 e2
          injection e2 with e2 e3
          subst e1
          subst e2
          simp [hcol, htok]
      · constructor
        · intro hok
          exact Except.noConfusion hok
        · rintro ⟨s', habs, -, -⟩
          simp at habs

lemma checkHeaderExists_error {h : Option String} {e : HttpError}
    (he : checkHeaderExists h = .error e) : e.status = 401 := by
  unfold checkHeaderExists at he
  split at he
  · injection he with h1
    rw [← h1]
  · split at he
    · injection he with h1
      rw [← h1]
    · exact Except.noConfusion he

lemma validateHeaderScheme_error {h : String} {e : HttpError}
    (he : validateHeaderScheme h = .error e) : e.status = 401 := by
  unfold validateHeaderScheme at he
  split at he
  · split at he
    · injection he with h1
      rw [← h1]
    · split at he
      · injection he with h1
        rw [← h1]
      · exact Except.noConfusion he
  · injection he with h1
    rw [← h1]

lemma validateAuthorizationHeader_eq_ok {h : Option String} {apiToken t : String} :
    validateAuthorizationHeader h apiToken = .ok t ↔
    ∃ s, h = some s ∧ s ≠ "" ∧ validateHeaderScheme s = .ok t ∧ t = apiToken := by
  rcases h with - | s
  · simp [validateAuthorizationHeader, checkHeaderExists]
  · by_cases hs : s = ""
    · subst hs
      simp [validateAuthorizationHeader, checkHeaderExists]
    · rcases hvs : validateHeaderScheme s with e | token
      · simp [validateAuthorizationHeader, checkHeaderExists, hs, hvs]
      · by_cases ht : token = apiToken
        · subst ht
          simp [validateAuthorizationHeader, checkHeaderExists, hs, hvs]
          exact fun h' => h'.symm
        · simp [validateAuthorizationHeader, checkHeaderExists, hs, hvs, ht]
          exact fun h' => h' ▸ ht

lemma validateAuthorizationHeader_error_401 {h : Option String} {apiToken : String}
    {e : HttpError} (he : validateAuthorizationHeader h apiToken = .error e) :
    e.status = 401 := by
  unfold validateAuthorizationHeader at he
  split at he
  · injection he with h1
    rw [← h1]
    exact checkHeaderExists_error (by assumption)
  · split at he
    · injection he with h1
      rw [← h1]
      exact validateHeaderScheme_error (by assumption)
    · split at he
      · injection he with h1
        rw [← h1]
      · exact Except.noConfusion he

/-- C7 (counterexample): with configured secret "sec", the header
"Be:arer sec" is accepted by the code — `replace(":", "")` deletes colons
anywhere in the scheme token, not only a trailing one — although its scheme
is neither "bearer" nor "bearer:" case-insensitively, so the claim's
characterisation of success is false as stated. -/
theorem validateAuthorizationHeader_claim_counterexample :
    validateAuthorizationHeader (some (r"Be:arer sec")) (r"sec") = .ok (r"sec") ∧
    ¬ authClaimSuccess (some (r"Be:arer sec")) (r"sec") := by
  constructor
  · rfl
  · rintro ⟨s, scheme, token, hs, hsplit, hscheme, -, -⟩
    obtain rfl : (r"Be:arer sec") = s := Option.some.inj hs
    have hval : pySplitWs (pyStrip (r"Be:arer sec")) = [r"Be:arer", r"sec"] := rfl
    rw [hval] at hsplit
    injection hsplit with e1 e2
    subst e1
    rcases hscheme with hc | hc
    · exact absurd hc (by decide)
    · exact absurd hc (by decide)

/-- C7 (amended): authentication succeeds with the configured secret as the
returned identity exactly when the header is present, its stripped text
splits into exactly two whitespace-separated tokens, the first token equals
"bearer" case-insensitively after deleting every colon (not only a trailing
one), and the second token is non-empty and equal to the configured secret;
any other outcome is an error carrying status 401. -/
theorem validateAuthorizationHeader_success_iff (h : Option String) (apiToken : String) :
    (validateAuthorizationHeader h apiToken = .ok apiToken ↔
      ∃ s scheme, h = some s ∧ pySplitWs (pyStrip s) = [scheme, apiToken] ∧
        removeColons (pyLower scheme) = "bearer" ∧ apiToken ≠ "") ∧
    (∀ t, validateAuthorizationHeader h apiToken = .ok t → t = apiToken) ∧
    (∀ e, validateAuthorizationHeader h apiToken = .error e → e.status = 401) := by
  refine ⟨⟨?_, ?_⟩, ?_, ?_⟩
  · intro hok
    obtain ⟨s, rfl, -, hvs, -⟩ := validateAuthorizationHeader_eq_ok.mp hok
    obtain ⟨scheme, hsplit, hcol, htok⟩ := validateHeaderScheme_eq_ok.mp hvs
    exact ⟨s, scheme, rfl, hsplit, hcol, htok⟩
  · rintro ⟨s, scheme, rfl, hsplit, hcol, htok⟩
    refine validateAuthorizationHeader_eq_ok.mpr ⟨s, rfl, ?_, ?_, rfl⟩
    · rintro rfl
      have hnil : pySplitWs (pyStrip "") = ([] : List String) := rfl
      rw [hnil] at hsplit
      exact List.noConfusion hsplit
    · exact validateHeaderScheme_eq_ok.mpr ⟨scheme, hsplit, hcol, htok⟩
  · intro t hok
    exact (validateAuthorizationHeader_eq_ok.mp hok).choose_spec.2.2.2
  · intro e he
    exact validateAuthorizationHeader_error_401 he

/-- C7 witness: the amended theorem applied at a concrete accepted header
("Bearer sec" with secret "sec") and at the concrete missing-header error. -/
theorem validateAuthorizationHeader_success_iff_witness :
    validateAuthorizationHeader (some (r"Bearer sec")) (r"sec") = .ok (r"sec") ∧
    (⟨401, r"Missing Authorization header"⟩ : HttpError).status = 401 :=
  ⟨(validateAuthorizationHeader_success_iff (some (r"Bearer sec")) (r"sec")).1.mpr
      ⟨r"Bearer sec", r"Bearer", rfl, rfl, rfl, by decide⟩,
   (validateAuthorizationHeader_success_iff none (r"sec")).2.2
      ⟨401, r"Missing Authorization header"⟩ rfl⟩

lemma getQueryKey_ne_getResultKey (a b : String) : getQueryKey a ≠ getResultKey b := by
  intro h
  have hd : ('q' :: 'u' :: 'e' :: 'r' :: 'y' :: ':' :: a.data) =
      ('r' :: 'e' :: 's' :: 'u' :: 'l' :: 't' :: ':' :: b.data) :=
    congrArg String.data h
  simp at hd

/-- C6 (confirmed): `RedisCache.set` issues exactly two independent
single-key `SETEX` writes, the payload record first and the alias record
second, each carrying the call's `ttl`; executed at their own write times
`t1` and `t2`, the payload key ends up expiring at `t1 + ttl` and the alias
key at `t2 + ttl` — independent countdowns from each write's own time, and no
cross-key atomicity (the trace is a two-element list, so a crash can fall
between the writes). -/
theorem cacheSet_two_phase (queryParams requestId : String) (resultData : JVal)
    (ttl t1 t2 : ℚ) (store : List RedisEntry) :
    cacheSetCmds queryParams requestId resultData ttl =
      [ .setex (getResultKey requestId) ttl (.asJson resultData),
        .setex (getQueryKey queryParams) ttl (.asStr requestId) ] ∧
    ∃ r', applyCmdsAt ⟨true, store⟩
        [ (t1, .setex (getResultKey requestId) ttl (.asJson resultData)),
          (t2, .setex (getQueryKey queryParams) ttl (.asStr requestId)) ] = .ok r' ∧
      r'.expiryOf (getResultKey requestId) = some (t1 + ttl) ∧
      r'.expiryOf (getQueryKey queryParams) = some (t2 + ttl) := by
  have hne : getQueryKey queryParams ≠ getResultKey requestId :=
    getQueryKey_ne_getResultKey queryParams requestId
  refine ⟨rfl, ?_⟩
  refine ⟨_, rfl, ?_, ?_⟩
  · simp [RedisConn.expiryOf, applyCmdsAt, RedisConn.applyCmd, RedisConn.rsetex,
      List.find?_cons, List.filter_cons, hne, Ne.symm hne, bne]
  · simp [RedisConn.expiryOf, applyCmdsAt, RedisConn.applyCmd, RedisConn.rsetex,
      List.find?_cons, List.filter_cons, hne, Ne.symm hne, bne]

/-- C8 (confirmed): when the cache backend connection is unavailable — never
established (`self._redis is None`) or established but down (every backend
call raising `RedisError`) — all cache operations degrade without raising:
`get` and `get_by_request_id` miss (`none`), `set` and `delete` return
failure (`false`), and `health_check` reports `false`. -/
theorem cache_unavailable_degrades (store : List RedisEntry) (now : ℚ)
    (queryParams requestId : String) (resultData : JVal) (ttl : ℚ) :
    (cacheGet none now queryParams = none ∧
     getByRequestId none now requestId = none ∧
     (cacheSet none now queryParams requestId resultData ttl).1 = false ∧
     (cacheDelete none now queryParams).1 = false ∧
     cacheHealthCheck none = false) ∧
    (cacheGet (some ⟨false, store⟩) now queryParams = none ∧
     getByRequestId (some ⟨false, store⟩) now requestId = none ∧
     (cacheSet (some ⟨false, store⟩) now queryParams requestId resultData ttl).1 = false ∧
     (cacheDelete (some ⟨false, store⟩) now queryParams).1 = false ∧
     cacheHealthCheck (some ⟨false, store⟩) = false) :=
  ⟨⟨rfl, rfl, rfl, rfl, rfl⟩, ⟨rfl, rfl, rfl, rfl, rfl⟩⟩

/-- C9 (confirmed): whenever the alias record for a fingerprint exists and
holds a (non-empty) request id whose payload record is absent, expired, or
holds an undecodable string, `RedisCache.get` does not report a miss: it
returns the present pair `(None, request_id)`. -/
theorem cacheGet_alias_without_payload (r : RedisConn) (now : ℚ)
    (queryParams requestId : String)
    (hrid : requestId ≠ "")
    (halias : r.rget now (getQueryKey queryParams) = .ok (some (.asStr requestId)))
    (hpayload : r.rget now (getResultKey requestId) = .ok none ∨
      ∃ s, r.rget now (getResultKey requestId) = .ok (some (.asStr s))) :
    cacheGet (some r) now queryParams = some (none, requestId) := by
  have hbody : getByRequestId (some r) now requestId = none := by
    simp only [getByRequestId]
    rcases hpayload with hp | ⟨s, hp⟩
    · rw [hp]
    · rw [hp]
      simp [jsonLoads]
  simp only [cacheGet]
  rw [halias]
  simp [RedisVal.isFalsy, hrid, RedisVal.toStr, hbody]

/-- C9 witness: a concrete connected store holding only the alias record
(query key mapping to request id rid-1) and no payload record at all. -/
theorem cacheGet_alias_without_payload_witness :
    cacheGet (some ⟨true, [⟨getQueryKey (r"symbol=bitcoin"), 600, .asStr (r"rid-1")⟩]⟩)
      0 (r"symbol=bitcoin") = some (none, r"rid-1") :=
  cacheGet_alias_without_payload _ 0 (r"symbol=bitcoin") (r"rid-1")
    (by decide) rfl (Or.inl rfl)

lemma retryableErr_true (e : FetchErr) : retryableErr e = true := by
  cases e <;> rfl

lemma fetchWithRetry_error3 (provider : Nat → ProviderResult) (e1 e2 e3 : FetchErr)
    (h1 : attemptOnce (provider 1) = .error e1)
    (h2 : attemptOnce (provider 2) = .error e2)
    (h3 : attemptOnce (provider 3) = .error e3) :
    fetchWithRetry provider = (3, .error e3) := by
  unfold fetchWithRetry
  simp only [h1, h2, h3, retryableErr_true, if_true]

/-- C1 (counterexample): a provider answering 404 on every attempt causes
three upstream attempts, not one — tenacity retries `httpx.HTTPStatusError`
regardless of status class, so 4xx responses are retried exactly like 5xx
ones. -/
theorem fetchWithRetry_404_counterexample :
    (fetchWithRetry (fun _ => .resp 404 .jnull)).1 = 3 ∧
    (fetchWithRetry (fun _ => .resp 404 .jnull)).1 ≠ 1 ∧
    (fetchWithRetry (fun _ => .resp 404 .jnull)).2 = .error (.httpStatusError 404) :=
  ⟨rfl, by decide, rfl⟩

/-- C1 (amended): every failing outcome — any 4xx response included, exactly
like 5xx responses and connection/timeout failures — is retried identically:
when the first three attempts all fail the client makes exactly 3 attempts
(backoff between them) and then surfaces the third attempt's error, while a
first-attempt success ends the fetch after exactly one attempt. -/
theorem fetchWithRetry_attempts (provider : Nat → ProviderResult) :
    (∀ e1 e2 e3, attemptOnce (provider 1) = .error e1 →
      attemptOnce (provider 2) = .error e2 →
      attemptOnce (provider 3) = .error e3 →
      fetchWithRetry provider = (3, .error e3)) ∧
    (∀ b, attemptOnce (provider 1) = .ok b → fetchWithRetry provider = (1, .ok b)) := by
  constructor
  · intro e1 e2 e3 h1 h2 h3
    exact fetchWithRetry_error3 provider e1 e2 e3 h1 h2 h3
  · intro b h1
    unfold fetchWithRetry
    simp only [h1]

/-- C1 witness: a constant-500 provider makes three attempts and surfaces the
status error; a first-attempt 200 returns after one attempt. -/
theorem fetchWithRetry_attempts_witness :
    fetchWithRetry (fun _ => .resp 500 .jnull) = (3, .error (.httpStatusError 500)) ∧
    fetchWithRetry (fun _ => .resp 200 .jnull) = (1, .ok .jnull) :=
  ⟨(fetchWithRetry_attempts (fun _ => .resp 500 .jnull)).1 _ _ _ rfl rfl rfl,
   (fetchWithRetry_attempts (fun _ => .resp 200 .jnull)).2 .jnull rfl⟩

/-- C2 (counterexample): a provider failing with 403 on every attempt is
surfaced by the gateway as 503, not passed through with the provider's own
status, and a provider connection/timeout failure is surfaced as 503, not
504 — so the claimed mapping is false as stated. -/
theorem statusMapping_counterexample :
    outcomeStatus (gatewayFetchOutcome (fun _ => .resp 403 .jnull) (r"bitcoin")) = 503 ∧
    outcomeStatus (gatewayFetchOutcome (fun _ => .resp 403 .jnull) (r"bitcoin")) ≠ 403 ∧
    outcomeStatus (gatewayFetchOutcome (fun _ => .connError) (r"bitcoin")) = 503 ∧
    outcomeStatus (gatewayFetchOutcome (fun _ => .connError) (r"bitcoin")) ≠ 504 :=
  ⟨rfl, by decide, rfl, by decide⟩

lemma gateway_status_const_httpError (s : Nat) (body : JVal) (symbol : String)
    (hs : 400 ≤ s) :
    outcomeStatus (gatewayFetchOutcome (fun _ => .resp s body) symbol) =
      if s = 400 then 400
      else if s = 401 then 503
      else if s = 404 then 404
      else 503 := by
  have ha : attemptOnce (.resp s body) = .error (.httpStatusError s) := by
    simp [attemptOnce, hs]
  have hf := fetchWithRetry_error3 (fun _ => .resp s body) _ _ _ ha ha ha
  unfold gatewayFetchOutcome fetcherReply fetchCoinData
  rw [hf]
  by_cases h400 : s = 400
  · subst h400
    simp [fetch_symbol_data, outcomeStatus]
  · by_cases h401 : s = 401
    · subst h401
      simp [fetch_symbol_data, outcomeStatus]
    · by_cases h404 : s = 404
      · subst h404
        simp [fetch_symbol_data, outcomeStatus]
      · simp [h400, h401, h404, fetch_symbol_data, outcomeStatus]

/-- C2 (amended): the end-to-end mapping of the provider status that ends a
fetch is: 400 maps to 400 (Invalid), 401 to 503 (masking the upstream
credential failure), 404 to 404 (NotFound), any other 4xx to 503 (not a
passthrough of the provider's status), any 5xx after exhausted retries to
503, and connection/timeout after exhausted retries to 503 (not 504); a 504
arises only when the gateway's own call to the fetcher service times out. -/
theorem statusMapping_amended (symbol : String) (body : JVal) :
    outcomeStatus (gatewayFetchOutcome (fun _ => .resp 400 body) symbol) = 400 ∧
    outcomeStatus (gatewayFetchOutcome (fun _ => .resp 401 body) symbol) = 503 ∧
    outcomeStatus (gatewayFetchOutcome (fun _ => .resp 404 body) symbol) = 404 ∧
    (∀ s, 400 ≤ s → s < 500 → s ≠ 400 → s ≠ 401 → s ≠ 404 →
      outcomeStatus (gatewayFetchOutcome (fun _ => .resp s body) symbol) = 503) ∧
    (∀ s, 500 ≤ s →
      outcomeStatus (gatewayFetchOutcome (fun _ => .resp s body) symbol) = 503) ∧
    outcomeStatus (gatewayFetchOutcome (fun _ => .connError) symbol) = 503 ∧
    outcomeStatus (fetch_symbol_data .timeoutErr) = 504 := by
  refine ⟨?_, ?_, ?_, ?_, ?_, ?_, rfl⟩
  · rw [gateway_status_const_httpError 400 body symbol (by omega)]
    simp
  · rw [gateway_status_const_httpError 401 body symbol (by omega)]
    simp
  · rw [gateway_status_const_httpError 404 body symbol (by omega)]
    simp
  · intro s hs1 hs2 h400 h401 h404
    rw [gateway_status_const_httpError s body symbol hs1]
    simp [h400, h401, h404]
  · intro s hs
    have h400 : s ≠ 400 := by omega
    have h401 : s ≠ 401 := by omega
    have h404 : s ≠ 404 := by omega
    rw [gateway_status_const_httpError s body symbol (by omega)]
    simp [h400, h401, h404]
  · have ha : attemptOnce ProviderResult.connError = .error .requestError := rfl
    have hf := fetchWithRetry_error3 (fun _ => .connError) _ _ _ ha ha ha
    unfold gatewayFetchOutcome fetcherReply fetchCoinData
    rw [hf]
    rfl

/-- C2 witness: the amended mapping applied at the concrete statuses 403
(another 4xx, surfaced as 503) and 502 (a 5xx, surfaced as 503). -/
theorem statusMapping_amended_witness :
    outcomeStatus (gatewayFetchOutcome (fun _ => .resp 403 .jnull) (r"ethereum")) = 503 ∧
    outcomeStatus (gatewayFetchOutcome (fun _ => .resp 502 .jnull) (r"ethereum")) = 503 :=
  ⟨(statusMapping_amended (r"ethereum") .jnull).2.2.2.1 403
      (by decide) (by decide) (by decide) (by decide) (by decide),
   (statusMapping_amended (r"ethereum") .jnull).2.2.2.2.1 502 (by decide)⟩

/-- C4 (code bug): every request to `GET /v1/health` first runs the
`rate_limit()` wrapper, whose kwargs contain no `token` because the endpoint
declares none, so the route answers the 500 configuration error instead of
the claimed 200 with a healthy/degraded body — for every backend state and
time.  The repository's own tests assert a 200 with no authentication here,
which matches the claim, so the code (decorating an endpoint that has no
`token` parameter with `rate_limit()`) is the defect. -/
theorem healthEndpoint_returns_500 (conn : Option RedisConn) (now : ℚ) :
    healthEndpoint conn now = .error ⟨500, r"Rate limiting configuration error"⟩ :=
  rfl

/-- C5 (code bug): with an empty connected cache, the first `POST` for
bitcoin succeeds with `cached=False` and stores both records, but the second
`POST` one second later (far within the 600-second TTL) crashes with a
`TypeError` (surfaced as a 500) instead of returning the first call's
request id with `cached=True`: the hit path calls `datetime.fromisoformat`
on the float that `time.time()` stored under `fetched_at`.  The repository's
own tests assert that the second call returns 200, `cached=True`, and the
first call's `request_id`, as the claim states, so the code is the defect. -/
theorem create_insight_second_call_crashes :
    ∃ conn1,
      create_insight (some ⟨true, []⟩) 0 (r"rid-1") (.ok bitcoinBody) 600 (r"bitcoin") =
        .ok (⟨r"rid-1", r"bitcoin", bitcoinBody, false, .jnum 0⟩, conn1) ∧
      create_insight conn1 1 (r"rid-2") (.ok bitcoinBody) 600 (r"bitcoin") =
        .error .typeError := by
  refine ⟨_, rfl, ?_⟩
  have h06 : (0 : ℚ) + 600 = 600 := by norm_num
  have hstep : (cacheSet (some ⟨true, []⟩) 0
      ((r"symbol=") ++ pyStrip (pyLower (r"bitcoin"))) (r"rid-1")
      (JVal.jobj (.jfcons (r"data") bitcoinBody
        (.jfcons (r"fetched_at") (.jnum 0) .jfnil))) 600).2 =
      some ⟨true,
        [⟨getQueryKey ((r"symbol=") ++ pyStrip (pyLower (r"bitcoin"))), 0 + 600,
          .asStr (r"rid-1")⟩,
         ⟨getResultKey (r"rid-1"), 0 + 600,
          .asJson (JVal.jobj (.jfcons (r"data") bitcoinBody
            (.jfcons (r"fetched_at") (.jnum 0) .jfnil)))⟩]⟩ := rfl
  rw [hstep, h06]
  rfl

end SMIG
